import Mathlib

/-!
# The C1 intermediate representation header `c1_IR.hpp`

A shallow embedding of the classes declared in `src/share/vm/c1/c1_IR.hpp`
(`XHandler`, `XHandlers`, `IRScope`, `IRScopeDebugInfo`, `CodeEmitInfo`, `IR`)
and the properties of their inline member functions.

Conventions of the embedding.

* A C++ `int` is an `Int`. The member functions embedded here only copy and
  compare their `int` arguments, so no arithmetic can overflow.
* A pointer that may be `NULL` is an `Option`; a pointer to an object of a class
  declared outside this header is the record of the data the header reads
  from it, or a bare address when the header reads nothing from it.
* `assert(cond, msg)` is modelled as in a debug build: a member function
  that asserts returns `Except String _`, and the failed assertion is
  `Except.error msg`.
* A mutator returns the updated object.
-/

set_option linter.dupNamespace false

namespace C1IR

/-- Result of a member function that is guarded by an `assert`. -/
abbrev Checked (α : Type) := Except String α

/-! ## Classes declared outside the header -/

/-- Address of a `ciInstanceKlass` object. -/
structure ciInstanceKlass where
  addr : Nat
  deriving DecidableEq, Repr

/-- Address of a `ciMethod` object. -/
structure ciMethod where
  addr : Nat
  deriving DecidableEq, Repr

/-- Address of a `LIR_List` object. -/
structure LIR_List where
  addr : Nat
  deriving DecidableEq, Repr

/-- Address of a `ValueStack` object. -/
structure ValueStack where
  addr : Nat
  deriving DecidableEq, Repr

/-- Address of a `Compilation` object. -/
structure Compilation where
  addr : Nat
  deriving DecidableEq, Repr

/-- Address of an `OopMap` object. -/
structure OopMap where
  addr : Nat
  deriving DecidableEq, Repr

/-- Address of a `ScopeValue` object. -/
structure ScopeValue where
  addr : Nat
  deriving DecidableEq, Repr

/-- Address of a `MonitorValue` object. -/
structure MonitorValue where
  addr : Nat
  deriving DecidableEq, Repr

/-- Address of a `DebugToken` object handed out by the recorder. -/
structure DebugToken where
  addr : Nat
  deriving DecidableEq, Repr

/-- Modelled from the spec: the class `ciExceptionHandler` is declared outside
this header; it is the handler range supplied by the method descriptor
provider (`start`, `limit`, `handler_bci`, `is_catch_all`,
`catch_klass_index`, `catch_klass`). -/
structure ciExceptionHandler where
  start : Int
  limit : Int
  handler_bci : Int
  is_catch_all : Bool
  catch_klass_index : Int
  catch_klass : ciInstanceKlass
  deriving DecidableEq, Repr

/-- Modelled from the spec: the class `BlockBegin` is declared outside this
header; of a block the header reads its `bci()` and whether
`BlockBegin::exception_entry_flag` is set. -/
structure BlockBegin where
  block_id : Nat
  bci : Int
  exception_entry_flag : Bool
  deriving DecidableEq, Repr

/-- Address-free content of a `BlockList`: the blocks in order. -/
abbrev BlockList := List BlockBegin

/-! ## `XHandler` -/

/-- The class `XHandler`: the C1 internal description of an exception handler. -/
structure XHandler where
  _desc : ciExceptionHandler
  _entry_block : Option BlockBegin
  _entry_code : Option LIR_List
  _entry_pco : Int
  _phi_operand : Int
  _scope_count : Int
  _lir_op_id : Int
  deriving DecidableEq, Repr

namespace XHandler

/-- The constructor `XHandler(ciExceptionHandler* desc)`. -/
def XHandler (desc : ciExceptionHandler) : C1IR.XHandler :=
  { _desc := desc
    _entry_block := none
    _entry_code := none
    _entry_pco := -1
    _phi_operand := -1
    _scope_count := -1
    _lir_op_id := -1 }

/-- The constructor `XHandler(XHandler* other)`. -/
def XHandler_copy (other : C1IR.XHandler) : C1IR.XHandler :=
  { _desc := other._desc
    _entry_block := other._entry_block
    _entry_code := other._entry_code
    _entry_pco := other._entry_pco
    _phi_operand := other._phi_operand
    _scope_count := other._scope_count
    _lir_op_id := other._lir_op_id }

def beg_bci (h : C1IR.XHandler) : Int := h._desc.start

def end_bci (h : C1IR.XHandler) : Int := h._desc.limit

def handler_bci (h : C1IR.XHandler) : Int := h._desc.handler_bci

def is_catch_all (h : C1IR.XHandler) : Bool := h._desc.is_catch_all

def catch_type (h : C1IR.XHandler) : Int := h._desc.catch_klass_index

def catch_klass (h : C1IR.XHandler) : ciInstanceKlass := h._desc.catch_klass

/-- The member `covers`: `beg_bci() <= bci && bci < end_bci()`. -/
def covers (h : C1IR.XHandler) (bci : Int) : Bool :=
  decide (h.beg_bci ≤ bci) && decide (bci < h.end_bci)

def entry_block (h : C1IR.XHandler) : Option BlockBegin := h._entry_block

def entry_code (h : C1IR.XHandler) : Option LIR_List := h._entry_code

def entry_pco (h : C1IR.XHandler) : Int := h._entry_pco

/-- The member `phi_operand`: `assert(_phi_operand != -1, "not set")`. -/
def phi_operand (h : C1IR.XHandler) : Checked Int :=
  if h._phi_operand != -1 then .ok h._phi_operand else .error "not set"

/-- The member `scope_count`: `assert(_scope_count != -1, "not set")`. -/
def scope_count (h : C1IR.XHandler) : Checked Int :=
  if h._scope_count != -1 then .ok h._scope_count else .error "not set"

def lir_op_id (h : C1IR.XHandler) : Int := h._lir_op_id

/-- The member `set_entry_block`, with its two assertions. -/
def set_entry_block (h : C1IR.XHandler) (entry_block : BlockBegin) : Checked C1IR.XHandler :=
  if !entry_block.exception_entry_flag then .error "must be an exception handler entry"
  else if entry_block.bci != h.handler_bci then .error "bci's must correspond"
  else .ok { h with _entry_block := some entry_block }

def set_entry_code (h : C1IR.XHandler) (entry_code : Option LIR_List) : C1IR.XHandler :=
  { h with _entry_code := entry_code }

def set_entry_pco (h : C1IR.XHandler) (entry_pco : Int) : C1IR.XHandler :=
  { h with _entry_pco := entry_pco }

def set_phi_operand (h : C1IR.XHandler) (phi_operand : Int) : C1IR.XHandler :=
  { h with _phi_operand := phi_operand }

def set_scope_count (h : C1IR.XHandler) (scope_count : Int) : C1IR.XHandler :=
  { h with _scope_count := scope_count }

def set_lir_op_id (h : C1IR.XHandler) (lir_op_id : Int) : C1IR.XHandler :=
  { h with _lir_op_id := lir_op_id }

end XHandler

/-! ## `_XHandlerList` and `XHandlers` -/

/-- Modelled from the spec: the macros `define_array` and `define_stack` are
defined outside this header; `_XHandlerList` is the growable stack of
handlers they declare, with `append` adding at the end, `pop` taking the last
element off (an error on an empty stack) and `at` reading a position (an
error outside `0 .. length() - 1`). -/
structure _XHandlerList where
  _data : List XHandler
  deriving DecidableEq, Repr

namespace _XHandlerList

/-- The empty stack, `_XHandlerList()`. -/
def empty : _XHandlerList := { _data := [] }

def length (s : _XHandlerList) : Int := (s._data.length : Int)

def at_ (s : _XHandlerList) (i : Int) : Checked XHandler :=
  if 0 ≤ i ∧ i < s.length then
    match s._data[i.toNat]? with
    | some h => .ok h
    | none => .error "index out of bounds"
  else .error "index out of bounds"

def append (s : _XHandlerList) (x : XHandler) : _XHandlerList :=
  { _data := s._data ++ [x] }

def pop (s : _XHandlerList) : Checked (XHandler × _XHandlerList) :=
  match s._data.getLast? with
  | some h => .ok (h, { _data := s._data.dropLast })
  | none => .error "stack is empty"

end _XHandlerList

/-- The class `XHandlers`: the C1 internal list of exception handlers of a method. -/
structure XHandlers where
  _list : _XHandlerList
  deriving DecidableEq, Repr

namespace XHandlers

/-- The constructor `XHandlers()`. -/
def XHandlers : C1IR.XHandlers := { _list := _XHandlerList.empty }

def length (t : C1IR.XHandlers) : Int := t._list.length

def handler_at (t : C1IR.XHandlers) (i : Int) : Checked XHandler := t._list.at_ i

def has_handlers (t : C1IR.XHandlers) : Bool := decide (t._list.length > 0)

def append (t : C1IR.XHandlers) (h : XHandler) : C1IR.XHandlers :=
  { _list := t._list.append h }

/-- The member `remove_last`: the handler popped and the table left. -/
def remove_last (t : C1IR.XHandlers) : Checked (XHandler × C1IR.XHandlers) :=
  match t._list.pop with
  | .ok (h, l) => .ok (h, { _list := l })
  | .error e => .error e

/-- Modelled from the spec: `XHandlers::could_catch` is declared in this header
and defined outside it. It returns true if any entry of the table can
possibly catch an exception of the given type: a catch-all entry always
matches; a typed entry matches if the exception type is a subtype of the
entry's catch type, or, when the type is not exact, if the entry's catch type
is a subtype of the exception type. An empty table gives false. The subtype
query service is the parameter `is_subtype_of`. -/
def could_catch (is_subtype_of : ciInstanceKlass → ciInstanceKlass → Bool)
    (t : C1IR.XHandlers) (klass : ciInstanceKlass) (type_is_exact : Bool) : Bool :=
  t._list._data.any fun h =>
    h.is_catch_all ||
      (is_subtype_of klass h.catch_klass ||
        (!type_is_exact && is_subtype_of h.catch_klass klass))

end XHandlers

/-! ## `IRScope` -/

/-- The class `IRScope`. The scope tree is cyclic (a scope points to its caller
and to its callees), so `_caller` and `_callees` hold addresses of scopes. -/
structure IRScope where
  _compilation : Compilation
  _caller : Option Nat
  _caller_bci : Int
  _caller_state : Option ValueStack
  _level : Int
  _method : ciMethod
  _callees : List Nat
  _xhandlers : Option XHandlers
  _number_of_locks : Int
  _monitor_pairing_ok : Bool
  _start : Option BlockBegin
  _lock_stack_size : Int
  _requires_phi_function : List Bool
  deriving DecidableEq, Repr

namespace IRScope

def compilation (s : IRScope) : Compilation := s._compilation

def caller (s : IRScope) : Option Nat := s._caller

def caller_bci (s : IRScope) : Int := s._caller_bci

def caller_state (s : IRScope) : Option ValueStack := s._caller_state

def level (s : IRScope) : Int := s._level

def method (s : IRScope) : ciMethod := s._method

/-- The member `lock_stack_size`: `assert(_lock_stack_size != -1, "uninitialized")`. -/
def lock_stack_size (s : IRScope) : Checked Int :=
  if s._lock_stack_size != -1 then .ok s._lock_stack_size else .error "uninitialized"

def requires_phi_function (s : IRScope) : List Bool := s._requires_phi_function

def set_caller_state (s : IRScope) (state : Option ValueStack) : IRScope :=
  { s with _caller_state := state }

def is_top_scope (s : IRScope) : Bool := s._caller == none

def add_callee (s : IRScope) (callee : Nat) : IRScope :=
  { s with _callees := s._callees ++ [callee] }

def number_of_callees (s : IRScope) : Int := (s._callees.length : Int)

def start (s : IRScope) : Option BlockBegin := s._start

/-- The member `is_valid`: `start() != NULL`. -/
def is_valid (s : IRScope) : Bool := s.start != none

def xhandlers (s : IRScope) : Option XHandlers := s._xhandlers

def number_of_locks (s : IRScope) : Int := s._number_of_locks

/-- The member `set_min_number_of_locks`:
`if (n > _number_of_locks) _number_of_locks = n;`. -/
def set_min_number_of_locks (s : IRScope) (n : Int) : IRScope :=
  if n > s._number_of_locks then { s with _number_of_locks := n } else s

def monitor_pairing_ok (s : IRScope) : Bool := s._monitor_pairing_ok

end IRScope

/-! ## `IRScopeDebugInfo` and the recorder -/

/-- The class `IRScopeDebugInfo`: the debug information of one scope, linked to
that of its caller. -/
inductive IRScopeDebugInfo where
  | mk (_scope : IRScope) (_bci : Int)
      (_locals : Option (List ScopeValue))
      (_expressions : Option (List ScopeValue))
      (_monitors : Option (List MonitorValue))
      (_caller : Option IRScopeDebugInfo)

namespace IRScopeDebugInfo

def scope : IRScopeDebugInfo → IRScope
  | mk s _ _ _ _ _ => s

def bci : IRScopeDebugInfo → Int
  | mk _ b _ _ _ _ => b

def locals : IRScopeDebugInfo → Option (List ScopeValue)
  | mk _ _ l _ _ _ => l

def expressions : IRScopeDebugInfo → Option (List ScopeValue)
  | mk _ _ _ e _ _ => e

def monitors : IRScopeDebugInfo → Option (List MonitorValue)
  | mk _ _ _ _ m _ => m

def caller : IRScopeDebugInfo → Option IRScopeDebugInfo
  | mk _ _ _ _ _ c => c

end IRScopeDebugInfo

/-- The arguments of one call of `DebugInformationRecorder::describe_scope`. -/
structure DescribeScope where
  pc_offset : Int
  method : ciMethod
  bci : Int
  reexecute : Bool
  is_method_handle_invoke : Bool
  return_oop : Bool
  locals : DebugToken
  expressions : DebugToken
  monitors : DebugToken
  deriving DecidableEq, Repr

/-- Modelled from the spec: the class `DebugInformationRecorder` is declared
outside this header; it is the external recorder, an object with a state `σ`
that hands out tokens through `create_scope_values` and
`create_monitor_values` and consumes frame descriptions through
`describe_scope`. -/
structure DebugInformationRecorder (σ : Type) where
  create_scope_values : σ → Option (List ScopeValue) → DebugToken × σ
  create_monitor_values : σ → Option (List MonitorValue) → DebugToken × σ
  describe_scope : σ → DescribeScope → σ

/-- A recorder that behaves as `r` and also keeps, oldest first, the
`describe_scope` calls it has received. -/
def DebugInformationRecorder.observed {σ : Type} (r : DebugInformationRecorder σ) :
    DebugInformationRecorder (σ × List DescribeScope) :=
  { create_scope_values := fun st v =>
      ((r.create_scope_values st.1 v).1, ((r.create_scope_values st.1 v).2, st.2))
    create_monitor_values := fun st v =>
      ((r.create_monitor_values st.1 v).1, ((r.create_monitor_values st.1 v).2, st.2))
    describe_scope := fun st c => (r.describe_scope st.1 c, st.2 ++ [c]) }

namespace IRScopeDebugInfo

/-- The member `record_debug_info`. The member `should_reexecute`, declared in
this header and defined outside it, is the parameter `should_reexecute`. -/
def record_debug_info {σ : Type} (should_reexecute : IRScopeDebugInfo → Bool)
    (recorder : DebugInformationRecorder σ) :
    IRScopeDebugInfo → Int → Bool → σ → σ
  | mk _scope _bci _locals _expressions _monitors _caller, pc_offset, topmost, st =>
    let st0 :=
      match _caller with
      | some c => record_debug_info should_reexecute recorder c pc_offset false st
      | none => st
    let locvals := recorder.create_scope_values st0 _locals
    let expvals := recorder.create_scope_values locvals.2 _expressions
    let monvals := recorder.create_monitor_values expvals.2 _monitors
    let reexecute :=
      if topmost then
        should_reexecute (mk _scope _bci _locals _expressions _monitors _caller)
      else false
    let is_method_handle_invoke := false
    let return_oop := false
    recorder.describe_scope monvals.2
      { pc_offset := pc_offset
        method := _scope.method
        bci := _bci
        reexecute := reexecute
        is_method_handle_invoke := is_method_handle_invoke
        return_oop := return_oop
        locals := locvals.1
        expressions := expvals.1
        monitors := monvals.1 }

/-- The nodes on the path from a node to the root of its caller chain: the
node itself first, the root last. -/
def path_to_root : IRScopeDebugInfo → List IRScopeDebugInfo
  | mk _scope _bci _locals _expressions _monitors _caller =>
    mk _scope _bci _locals _expressions _monitors _caller ::
      (match _caller with
       | some c => path_to_root c
       | none => [])

end IRScopeDebugInfo

/-! ## `CodeEmitInfo` -/

/-- The class `CodeEmitInfo`; the records of one compilation are linked through
`_next`. -/
inductive CodeEmitInfo where
  | mk (_scope_debug_info : Option IRScopeDebugInfo) (_scope : IRScope)
      (_exception_handlers : Option XHandlers) (_oop_map : Option OopMap)
      (_stack : Option ValueStack) (_bci : Int)
      (_next : Option CodeEmitInfo) (_id : Int)

namespace CodeEmitInfo

/-- The constructor `CodeEmitInfo(IRScope* scope, int bci)`, used by natives. -/
def CodeEmitInfo (scope : IRScope) (bci : Int) : C1IR.CodeEmitInfo :=
  mk none scope none none none bci none (-1)

def oop_map : C1IR.CodeEmitInfo → Option OopMap
  | mk _ _ _ o _ _ _ _ => o

def scope : C1IR.CodeEmitInfo → IRScope
  | mk _ s _ _ _ _ _ _ => s

def method (info : C1IR.CodeEmitInfo) : ciMethod := info.scope.method

def exception_handlers : C1IR.CodeEmitInfo → Option XHandlers
  | mk _ _ x _ _ _ _ _ => x

def stack : C1IR.CodeEmitInfo → Option ValueStack
  | mk _ _ _ _ s _ _ _ => s

def bci : C1IR.CodeEmitInfo → Int
  | mk _ _ _ _ _ b _ _ => b

def next : C1IR.CodeEmitInfo → Option C1IR.CodeEmitInfo
  | mk _ _ _ _ _ _ n _ => n

def set_next : C1IR.CodeEmitInfo → Option C1IR.CodeEmitInfo → C1IR.CodeEmitInfo
  | mk d s x o st b _ i, next => mk d s x o st b next i

def id : C1IR.CodeEmitInfo → Int
  | mk _ _ _ _ _ _ _ i => i

def set_id : C1IR.CodeEmitInfo → Int → C1IR.CodeEmitInfo
  | mk d s x o st b n _, id => mk d s x o st b n id

end CodeEmitInfo

/-! ## `IR` -/

/-- The class `IR`: the compilation unit. -/
structure IR where
  _compilation : Compilation
  _top_scope : IRScope
  _locals_size : Int
  _num_loops : Int
  _code : Option BlockList
  deriving DecidableEq, Repr

namespace IR

def top_scope (ir : IR) : IRScope := ir._top_scope

/-- The member `IR::is_valid`: `top_scope()->is_valid()`. -/
def is_valid (ir : IR) : Bool := ir.top_scope.is_valid

def compilation (ir : IR) : Compilation := ir._compilation

def number_of_locks (ir : IR) : Int := ir.top_scope.number_of_locks

def method (ir : IR) : ciMethod := ir.top_scope.method

def start (ir : IR) : Option BlockBegin := ir.top_scope.start

def locals_size (ir : IR) : Int := ir._locals_size

def code (ir : IR) : Option BlockList := ir._code

def num_loops (ir : IR) : Int := ir._num_loops

/-- The member `linear_scan_order`:
`assert(_code != NULL, "not computed"); return _code;`. -/
def linear_scan_order (ir : IR) : Checked (Option BlockList) :=
  if ir._code != none then .ok ir._code else .error "not computed"

end IR

/-! ## Sequences of calls and concrete objects used in the examples -/

/-- The scope after the calls `set_min_number_of_locks(n1)`, ...,
`set_min_number_of_locks(nk)`, made in this order. -/
def IRScope.set_min_number_of_locks_seq (s : IRScope) (ns : List Int) : IRScope :=
  ns.foldl IRScope.set_min_number_of_locks s

/-- The part of a `describe_scope` call that identifies the frame: the
`pc_offset`, the method and the bci. -/
def DescribeScope.frame (c : DescribeScope) : Int × ciMethod × Int :=
  (c.pc_offset, c.method, c.bci)

/-- The frame a node of a caller chain is described by at `pc_offset`. -/
def IRScopeDebugInfo.frame_at (pc_offset : Int) (n : IRScopeDebugInfo) : Int × ciMethod × Int :=
  (pc_offset, n.scope.method, n.bci)

/-- A concrete handler descriptor: range `[2, 5)`, handler at 7, typed. -/
def sample_desc : ciExceptionHandler :=
  { start := 2, limit := 5, handler_bci := 7, is_catch_all := false,
    catch_klass_index := 3, catch_klass := { addr := 10 } }

/-- A concrete scope: a top scope of method 1 that needs 2 lock slots and has
no start block. -/
def sample_scope : IRScope :=
  { _compilation := { addr := 100 }, _caller := none, _caller_bci := -1,
    _caller_state := none, _level := 0, _method := { addr := 1 }, _callees := [],
    _xhandlers := none, _number_of_locks := 2, _monitor_pairing_ok := true,
    _start := none, _lock_stack_size := -1, _requires_phi_function := [] }

/-- A concrete handler table: the one typed handler of `sample_desc`. -/
def sample_table : XHandlers :=
  XHandlers.XHandlers.append (XHandler.XHandler sample_desc)

/-- A concrete subtype query: a class is a subtype of the classes at addresses
that divide its own. -/
def sample_is_subtype_of (a b : ciInstanceKlass) : Bool :=
  a.addr % b.addr == 0

/-! ## Properties of `XHandler` -/

/-- C2: for every handler entry and every bytecode offset `p`, `covers(p)` is
true exactly when `start <= p` and `p < limit`; an entry with
`start = limit` covers no offset. -/
theorem covers_iff_in_range (h : XHandler) (p : Int) :
    (h.covers p = true ↔ h._desc.start ≤ p ∧ p < h._desc.limit) ∧
      (h._desc.start = h._desc.limit → h.covers p = false) := by
  have key : h.covers p = true ↔ h._desc.start ≤ p ∧ p < h._desc.limit := by
    simp [XHandler.covers, XHandler.beg_bci, XHandler.end_bci]
  refine ⟨key, fun heq => ?_⟩
  rw [Bool.eq_false_iff, Ne, key]
  omega

/-- C7 as stated fails: after `set_phi_operand(-1)` (and `set_scope_count(-1)`)
the read is still the failed assertion "not set". -/
theorem phi_operand_set_minus_one_not_set :
    ((XHandler.XHandler sample_desc).set_phi_operand (-1)).phi_operand = Except.error "not set" ∧
      ((XHandler.XHandler sample_desc).set_scope_count (-1)).scope_count
        = Except.error "not set" := by
  constructor <;> rfl

/-- C7, amended: on a handler built from a descriptor, reading `phi_operand()` or
`scope_count()` before the setter has been called is the failed assertion
"not set"; after `set_phi_operand(v)` (respectively `set_scope_count(v)`) with
`v` other than the sentinel -1, on any handler, the read succeeds and returns
`v`. -/
theorem phi_operand_scope_count_unset_then_set (desc : ciExceptionHandler)
    (h : XHandler) (v : Int) (hv : v ≠ -1) :
    (XHandler.XHandler desc).phi_operand = Except.error "not set" ∧
      (XHandler.XHandler desc).scope_count = Except.error "not set" ∧
      (h.set_phi_operand v).phi_operand = Except.ok v ∧
      (h.set_scope_count v).scope_count = Except.ok v := by
  refine ⟨rfl, rfl, ?_, ?_⟩
  · simp [XHandler.phi_operand, XHandler.set_phi_operand, hv]
  · simp [XHandler.scope_count, XHandler.set_scope_count, hv]

/-! ## Properties of `XHandlers` -/

/-- C6: `append(h)` raises `length()` by one, leaves `handler_at(i)` unchanged
for every `i` below the old length and puts `h` at the last position;
`remove_last()` directly after `append(h)` returns `h` and the table as it
was before. -/
theorem append_remove_last_stack_discipline (T : XHandlers) (h : XHandler) :
    (T.append h).length = T.length + 1 ∧
      (∀ i : Int, 0 ≤ i → i < T.length → (T.append h).handler_at i = T.handler_at i) ∧
      (T.append h).handler_at T.length = Except.ok h ∧
      (T.append h).remove_last = Except.ok (h, T) := by
  obtain ⟨⟨l⟩⟩ := T
  refine ⟨?_, ?_, ?_, ?_⟩
  · simp [XHandlers.append, XHandlers.length, _XHandlerList.append, _XHandlerList.length]
  · intro i h0 hi
    simp only [XHandlers.length, _XHandlerList.length] at hi
    have hlt : i.toNat < l.length := by omega
    have hi2 : i < ((l ++ [h]).length : Int) := by
      simp only [List.length_append, List.length_singleton]; push_cast; omega
    simp only [XHandlers.append, XHandlers.handler_at, _XHandlerList.append,
      _XHandlerList.at_, _XHandlerList.length, h0, hi, hi2, and_self, if_true]
    rw [List.getElem?_append_left hlt]
  · have hlen : ((l ++ [h]).length : Int) = (l.length : Int) + 1 := by
      simp
    simp [XHandlers.append, XHandlers.handler_at, XHandlers.length, _XHandlerList.append,
      _XHandlerList.at_, _XHandlerList.length]
  · simp [XHandlers.append, XHandlers.remove_last, _XHandlerList.append, _XHandlerList.pop]

/-- C7, at a concrete input: a handler built from `sample_desc`, then given the
value 4. -/
theorem phi_operand_scope_count_unset_then_set_witness :
    (4 : Int) ≠ -1 ∧
      (XHandler.XHandler sample_desc).phi_operand = Except.error "not set" ∧
      (XHandler.XHandler sample_desc).scope_count = Except.error "not set" ∧
      ((XHandler.XHandler sample_desc).set_phi_operand 4).phi_operand = Except.ok 4 ∧
      ((XHandler.XHandler sample_desc).set_scope_count 4).scope_count = Except.ok 4 :=
  ⟨by decide,
    phi_operand_scope_count_unset_then_set sample_desc (XHandler.XHandler sample_desc) 4
      (by decide)⟩

/-- Membership in the table's handlers decides `could_catch`. -/
theorem could_catch_eq_true_iff (sub : ciInstanceKlass → ciInstanceKlass → Bool)
    (T : XHandlers) (klass : ciInstanceKlass) (exact : Bool) :
    T.could_catch sub klass exact = true ↔
      ∃ h ∈ T._list._data, h.is_catch_all = true ∨ sub klass h.catch_klass = true ∨
        (exact = false ∧ sub h.catch_klass klass = true) := by
  simp [XHandlers.could_catch]

/-- C10: for every handler table and exception type, if
`could_catch(t, exact = true)` returns true then `could_catch(t, exact =
false)` returns true on the same table, whatever the subtype relation. -/
theorem could_catch_exact_imp_inexact (is_subtype_of : ciInstanceKlass → ciInstanceKlass → Bool)
    (T : XHandlers) (t : ciInstanceKlass)
    (hexact : T.could_catch is_subtype_of t true = true) :
    T.could_catch is_subtype_of t false = true := by
  rw [could_catch_eq_true_iff] at hexact ⊢
  obtain ⟨h, hmem, hcase⟩ := hexact
  refine ⟨h, hmem, ?_⟩
  rcases hcase with hall | hsub | ⟨hfalse, _⟩
  · exact Or.inl hall
  · exact Or.inr (Or.inl hsub)
  · exact absurd hfalse (by decide)

/-- C10, at a concrete input: the class at address 20 is a subtype of the catch
class at address 10 of `sample_table`. -/
theorem could_catch_exact_imp_inexact_witness :
    sample_table.could_catch sample_is_subtype_of { addr := 20 } true = true ∧
      sample_table.could_catch sample_is_subtype_of { addr := 20 } false = true :=
  ⟨by decide,
    could_catch_exact_imp_inexact sample_is_subtype_of sample_table { addr := 20 } (by decide)⟩

/-! ## Properties of `IRScope` -/

/-- One call of `set_min_number_of_locks(n)` leaves the larger of the old count
and `n`. -/
theorem number_of_locks_set_min (s : IRScope) (n : Int) :
    (s.set_min_number_of_locks n).number_of_locks = max s.number_of_locks n := by
  unfold IRScope.set_min_number_of_locks IRScope.number_of_locks
  split
  · rename_i hgt
    simp only []
    omega
  · rename_i hle
    omega

/-- A sequence of calls folds `max` over the arguments. -/
theorem number_of_locks_seq (ns : List Int) (s : IRScope) :
    (s.set_min_number_of_locks_seq ns).number_of_locks = ns.foldl max s.number_of_locks := by
  induction ns generalizing s with
  | nil => rfl
  | cons n ns ih =>
    simp only [IRScope.set_min_number_of_locks_seq, List.foldl_cons] at ih ⊢
    rw [ih, number_of_locks_set_min]

/-- Folding `max` from `c` gives an upper bound of `c` and of the list that is
one of them. -/
theorem foldl_max_spec (ns : List Int) (c : Int) :
    c ≤ ns.foldl max c ∧ (∀ n ∈ ns, n ≤ ns.foldl max c) ∧
      (ns.foldl max c = c ∨ ns.foldl max c ∈ ns) := by
  induction ns generalizing c with
  | nil => simp
  | cons n ns ih =>
    obtain ⟨h1, h2, h3⟩ := ih (max c n)
    simp only [List.foldl_cons, List.mem_cons, forall_eq_or_imp]
    refine ⟨le_trans (le_max_left c n) h1, ⟨le_trans (le_max_right c n) h1, h2⟩, ?_⟩
    rcases h3 with h3 | h3
    · rcases le_total c n with hcn | hnc
      · right; left; rw [h3]; exact max_eq_right hcn
      · left; rw [h3]; exact max_eq_left hnc
    · right; right; exact h3

/-- C3: after `set_min_number_of_locks` has been called with `n1..nk`,
`number_of_locks()` is the maximum of the initial count and the `ni` (an upper
bound of all of them that is one of them, the fold of `max`); no call lowers
the count, and calling with the same values in another order gives the same
count. -/
theorem set_min_number_of_locks_seq_max (s : IRScope) (ns ms : List Int) (n : Int)
    (hperm : ns.Perm ms) :
    (s.set_min_number_of_locks_seq ns).number_of_locks = ns.foldl max s.number_of_locks ∧
      s.number_of_locks ≤ (s.set_min_number_of_locks_seq ns).number_of_locks ∧
      (∀ k ∈ ns, k ≤ (s.set_min_number_of_locks_seq ns).number_of_locks) ∧
      ((s.set_min_number_of_locks_seq ns).number_of_locks = s.number_of_locks ∨
        (s.set_min_number_of_locks_seq ns).number_of_locks ∈ ns) ∧
      s.number_of_locks ≤ (s.set_min_number_of_locks n).number_of_locks ∧
      (s.set_min_number_of_locks_seq ms).number_of_locks
        = (s.set_min_number_of_locks_seq ns).number_of_locks := by
  obtain ⟨a1, a2, a3⟩ := foldl_max_spec ns s.number_of_locks
  obtain ⟨b1, b2, b3⟩ := foldl_max_spec ms s.number_of_locks
  rw [number_of_locks_seq, number_of_locks_seq, number_of_locks_set_min]
  refine ⟨rfl, a1, a2, a3, le_max_left _ _, ?_⟩
  apply le_antisymm
  · rcases b3 with b3 | b3
    · rw [b3]; exact a1
    · exact a2 _ (hperm.mem_iff.mpr b3)
  · rcases a3 with a3 | a3
    · rw [a3]; exact b1
    · exact b2 _ (hperm.mem_iff.mp a3)

/-- C3, at a concrete input: a scope that needs 2 lock slots, called with
3, 1, 5 and with 5, 3, 1, ends with 5. -/
theorem set_min_number_of_locks_seq_max_witness :
    [(3 : Int), 1, 5].Perm [5, 3, 1] ∧
      (sample_scope.set_min_number_of_locks_seq [3, 1, 5]).number_of_locks = 5 ∧
      (sample_scope.set_min_number_of_locks_seq [5, 3, 1]).number_of_locks = 5 :=
  have hperm : [(3 : Int), 1, 5].Perm [5, 3, 1] := by decide
  have hmax := set_min_number_of_locks_seq_max sample_scope [3, 1, 5] [5, 3, 1] 0 hperm
  ⟨hperm, hmax.1.trans (by decide), (hmax.2.2.2.2.2).trans (hmax.1.trans (by decide))⟩

/-- C9: a scope's `is_valid()` is true exactly when its start block is present,
and a compilation unit's `is_valid()` is that of its root scope. -/
theorem is_valid_iff_start_present (s : IRScope) (ir : IR) :
    (s.is_valid = true ↔ s.start ≠ none) ∧
      (s.is_valid = true ↔ ∃ b, s._start = some b) ∧
      ir.is_valid = ir.top_scope.is_valid ∧
      (ir.is_valid = true ↔ ir._top_scope._start ≠ none) := by
  refine ⟨?_, ?_, rfl, ?_⟩
  · simp [IRScope.is_valid]
  · simp [IRScope.is_valid, IRScope.start, Option.ne_none_iff_exists']
  · simp [IR.is_valid, IR.top_scope, IRScope.is_valid, IRScope.start]

/-! ## Properties of `IR` -/

/-- C8: while the block list is absent `linear_scan_order()` is the failed
assertion "not computed"; once it is present `linear_scan_order()` returns
exactly the block list that `code()` returns. -/
theorem linear_scan_order_eq_code (ir : IR) :
    (ir.code = none → ir.linear_scan_order = Except.error "not computed") ∧
      (∀ blocks : BlockList, ir.code = some blocks →
        ir.linear_scan_order = Except.ok (some blocks) ∧
          ir.linear_scan_order = Except.ok ir.code) := by
  constructor
  · intro hnone
    simp only [IR.code] at hnone
    simp [IR.linear_scan_order, hnone]
  · intro blocks hsome
    simp only [IR.code] at hsome
    simp [IR.linear_scan_order, IR.code, hsome]

/-! ## Properties of `CodeEmitInfo` -/

/-- C5 as stated fails: two distinct records created for one scope (at bci 0
and at bci 1) have the same id, the unset value -1. -/
theorem CodeEmitInfo_created_ids_equal :
    CodeEmitInfo.CodeEmitInfo sample_scope 0 ≠ CodeEmitInfo.CodeEmitInfo sample_scope 1 ∧
      (CodeEmitInfo.CodeEmitInfo sample_scope 0).id = -1 ∧
      (CodeEmitInfo.CodeEmitInfo sample_scope 0).id
        = (CodeEmitInfo.CodeEmitInfo sample_scope 1).id := by
  refine ⟨fun heq => ?_, rfl, rfl⟩
  have hbci := congrArg CodeEmitInfo.bci heq
  exact absurd hbci (by decide)

/-- C5, amended: a record created by `CodeEmitInfo(scope, bci)` has the unset id
-1; an id is assigned by `set_id(v)`, after which `id()` returns `v` and the
other fields are as before; two records that `set_id` gave different values
have different ids. -/
theorem CodeEmitInfo_id_unset_until_set_id (scope : IRScope) (bci : Int)
    (a b : CodeEmitInfo) (v w : Int) (hvw : v ≠ w) :
    (CodeEmitInfo.CodeEmitInfo scope bci).id = -1 ∧
      (a.set_id v).id = v ∧
      (a.set_id v).bci = a.bci ∧ (a.set_id v).scope = a.scope ∧ (a.set_id v).next = a.next ∧
      (a.set_id v).id ≠ (b.set_id w).id := by
  cases a
  cases b
  exact ⟨rfl, rfl, rfl, rfl, rfl, hvw⟩

/-- C5 amended, at a concrete input: two records created for `sample_scope`, then
given the ids 0 and 1. -/
theorem CodeEmitInfo_id_unset_until_set_id_witness :
    (0 : Int) ≠ 1 ∧
      ((CodeEmitInfo.CodeEmitInfo sample_scope 0).set_id 0).id
        ≠ ((CodeEmitInfo.CodeEmitInfo sample_scope 1).set_id 1).id :=
  ⟨by decide,
    (CodeEmitInfo_id_unset_until_set_id sample_scope 0 (CodeEmitInfo.CodeEmitInfo sample_scope 0)
      (CodeEmitInfo.CodeEmitInfo sample_scope 1) 0 1 (by decide)).2.2.2.2.2⟩

/-! ## Properties of `IRScopeDebugInfo.record_debug_info` -/

/-- The path to the root starts with the node itself. -/
theorem path_to_root_eq_cons (N : IRScopeDebugInfo) :
    N.path_to_root = N :: N.path_to_root.tail := by
  obtain ⟨s, b, l, e, m, c⟩ := N
  cases c <;> (rw [IRScopeDebugInfo.path_to_root]; rfl)

/-- The path to the root of a node with a caller continues with the caller's. -/
theorem path_to_root_tail_some (s : IRScope) (b : Int) (l e : Option (List ScopeValue))
    (m : Option (List MonitorValue)) (c : IRScopeDebugInfo) :
    (IRScopeDebugInfo.mk s b l e m (some c)).path_to_root.tail = c.path_to_root := by
  rw [IRScopeDebugInfo.path_to_root]
  rfl

/-- The path to the root of a node without a caller is the node alone. -/
theorem path_to_root_tail_none (s : IRScope) (b : Int) (l e : Option (List ScopeValue))
    (m : Option (List MonitorValue)) :
    (IRScopeDebugInfo.mk s b l e m none).path_to_root.tail = [] := by
  rw [IRScopeDebugInfo.path_to_root]
  rfl

/-- An observing recorder appends each `describe_scope` call to its log. -/
theorem observed_describe_scope_log {σ : Type} (r : DebugInformationRecorder σ)
    (st : σ × List DescribeScope) (c : DescribeScope) :
    (r.observed.describe_scope st c).2 = st.2 ++ [c] := rfl

/-- An observing recorder keeps its log through `create_scope_values`. -/
theorem observed_create_scope_values_log {σ : Type} (r : DebugInformationRecorder σ)
    (st : σ × List DescribeScope) (v : Option (List ScopeValue)) :
    (r.observed.create_scope_values st v).2.2 = st.2 := rfl

/-- An observing recorder keeps its log through `create_monitor_values`. -/
theorem observed_create_monitor_values_log {σ : Type} (r : DebugInformationRecorder σ)
    (st : σ × List DescribeScope) (v : Option (List MonitorValue)) :
    (r.observed.create_monitor_values st v).2.2 = st.2 := rfl

/-- The `describe_scope` calls one run of `record_debug_info` adds to the log of
an observing recorder: the frames of the callers, root first, each with
`reexecute = false`, then the frame of the node itself. -/
theorem record_debug_info_observed_log {σ : Type} (sr : IRScopeDebugInfo → Bool)
    (r : DebugInformationRecorder σ) :
    ∀ (N : IRScopeDebugInfo) (pc : Int) (topmost : Bool) (st : σ) (log : List DescribeScope),
      ∃ calls : List DescribeScope,
        (N.record_debug_info sr r.observed pc topmost (st, log)).2 = log ++ calls ∧
          calls.map (fun c => (c.frame, c.reexecute))
            = N.path_to_root.tail.reverse.map (fun n => (n.frame_at pc, false))
              ++ [(N.frame_at pc, if topmost then sr N else false)]
  | .mk s b l e m none, pc, topmost, st, log => by
    refine ⟨[?call], ?hlog, ?hmap⟩
    case hlog =>
      rw [IRScopeDebugInfo.record_debug_info, observed_describe_scope_log,
        observed_create_monitor_values_log, observed_create_scope_values_log,
        observed_create_scope_values_log]
      exact rfl
    case hmap =>
      rw [path_to_root_tail_none]
      rfl
  | .mk s b l e m (some c), pc, topmost, st, log => by
    obtain ⟨calls, hlog, hcalls⟩ := record_debug_info_observed_log sr r c pc false st log
    refine ⟨calls ++ [?inner], ?hlog, ?hmap⟩
    case hlog =>
      rw [IRScopeDebugInfo.record_debug_info, observed_describe_scope_log,
        observed_create_monitor_values_log, observed_create_scope_values_log,
        observed_create_scope_values_log, hlog, List.append_assoc]
      exact rfl
    case hmap =>
      rw [path_to_root_tail_some, path_to_root_eq_cons c, List.map_append, hcalls,
        List.reverse_cons, List.map_append]
      rfl

/-- An observing recorder passes `describe_scope` on to the recorder it wraps. -/
theorem observed_describe_scope_state {σ : Type} (r : DebugInformationRecorder σ)
    (st : σ × List DescribeScope) (c : DescribeScope) :
    (r.observed.describe_scope st c).1 = r.describe_scope st.1 c := rfl

/-- An observing recorder hands out the tokens of the recorder it wraps. -/
theorem observed_create_scope_values_token {σ : Type} (r : DebugInformationRecorder σ)
    (st : σ × List DescribeScope) (v : Option (List ScopeValue)) :
    (r.observed.create_scope_values st v).1 = (r.create_scope_values st.1 v).1 := rfl

/-- An observing recorder passes `create_scope_values` on to the recorder it wraps. -/
theorem observed_create_scope_values_state {σ : Type} (r : DebugInformationRecorder σ)
    (st : σ × List DescribeScope) (v : Option (List ScopeValue)) :
    (r.observed.create_scope_values st v).2.1 = (r.create_scope_values st.1 v).2 := rfl

/-- An observing recorder hands out the monitor tokens of the recorder it wraps. -/
theorem observed_create_monitor_values_token {σ : Type} (r : DebugInformationRecorder σ)
    (st : σ × List DescribeScope) (v : Option (List MonitorValue)) :
    (r.observed.create_monitor_values st v).1 = (r.create_monitor_values st.1 v).1 := rfl

/-- An observing recorder passes `create_monitor_values` on to the recorder it wraps. -/
theorem observed_create_monitor_values_state {σ : Type} (r : DebugInformationRecorder σ)
    (st : σ × List DescribeScope) (v : Option (List MonitorValue)) :
    (r.observed.create_monitor_values st v).2.1 = (r.create_monitor_values st.1 v).2 := rfl

/-- Observation does not disturb the run: the recorder wrapped by an observing
recorder ends in the state a direct run of `record_debug_info` leaves it in. -/
theorem record_debug_info_observed_state {σ : Type} (sr : IRScopeDebugInfo → Bool)
    (r : DebugInformationRecorder σ) :
    ∀ (N : IRScopeDebugInfo) (pc : Int) (topmost : Bool) (st : σ) (log : List DescribeScope),
      (N.record_debug_info sr r.observed pc topmost (st, log)).1
        = N.record_debug_info sr r pc topmost st
  | .mk s b l e m none, pc, topmost, st, log => by
    rw [IRScopeDebugInfo.record_debug_info, IRScopeDebugInfo.record_debug_info]
    simp only [observed_describe_scope_state, observed_create_scope_values_token,
      observed_create_scope_values_state, observed_create_monitor_values_token,
      observed_create_monitor_values_state]
  | .mk s b l e m (some c), pc, topmost, st, log => by
    have ih := record_debug_info_observed_state sr r c pc false st log
    rw [IRScopeDebugInfo.record_debug_info, IRScopeDebugInfo.record_debug_info]
    simp only [observed_describe_scope_state, observed_create_scope_values_token,
      observed_create_scope_values_state, observed_create_monitor_values_token,
      observed_create_monitor_values_state, ih]

/-- C1: `record_debug_info` called on a node `N` of a caller chain makes exactly
one `describe_scope` call per node on the path from `N` to the root, the
root first and `N` last, every call with the same `pc_offset` and the method
and bci of its own node; on the three-frame chain A -> B -> C (root),
triggered on A, the recorder observes C, B, A. -/
theorem record_debug_info_describes_root_first {σ : Type}
    (should_reexecute : IRScopeDebugInfo → Bool) (recorder : DebugInformationRecorder σ)
    (N : IRScopeDebugInfo) (pc_offset : Int) (topmost : Bool) (st : σ)
    (log : List DescribeScope) :
    (N.record_debug_info should_reexecute recorder.observed pc_offset topmost (st, log)).2.map
        DescribeScope.frame
      = log.map DescribeScope.frame
        ++ N.path_to_root.reverse.map (IRScopeDebugInfo.frame_at pc_offset) ∧
    (N.record_debug_info should_reexecute recorder.observed pc_offset topmost (st, [])).2.length
      = N.path_to_root.length ∧
    ∀ (sA sB sC : IRScope) (bA bB bC : Int) (lA eA lB eB lC eC : Option (List ScopeValue))
      (mA mB mC : Option (List MonitorValue)),
      ((IRScopeDebugInfo.mk sA bA lA eA mA
          (some (IRScopeDebugInfo.mk sB bB lB eB mB
            (some (IRScopeDebugInfo.mk sC bC lC eC mC none))))).record_debug_info
          should_reexecute recorder.observed pc_offset topmost (st, [])).2.map DescribeScope.frame
        = [(pc_offset, sC.method, bC), (pc_offset, sB.method, bB), (pc_offset, sA.method, bA)] := by
  have key : ∀ (M : IRScopeDebugInfo) (prior : List DescribeScope),
      (M.record_debug_info should_reexecute recorder.observed pc_offset topmost
          (st, prior)).2.map DescribeScope.frame
        = prior.map DescribeScope.frame
          ++ M.path_to_root.reverse.map (IRScopeDebugInfo.frame_at pc_offset) := by
    intro M prior
    obtain ⟨calls, hlog, hcalls⟩ :=
      record_debug_info_observed_log should_reexecute recorder M pc_offset topmost st prior
    have hframes := congrArg (List.map Prod.fst) hcalls
    simp only [List.map_map, List.map_append, List.map_cons, List.map_nil] at hframes
    rw [hlog, List.map_append]
    conv_rhs => rw [path_to_root_eq_cons M, List.reverse_cons, List.map_append]
    exact congrArg (List.map DescribeScope.frame prior ++ ·) hframes
  refine ⟨key N log, ?_, ?_⟩
  · have hlen := congrArg List.length (key N [])
    simpa using hlen
  · intro sA sB sC bA bB bC lA eA lB eB lC eC mA mB mC
    rw [key, path_to_root_eq_cons, path_to_root_tail_some, path_to_root_eq_cons (.mk sB _ _ _ _ _),
      path_to_root_tail_some, path_to_root_eq_cons (.mk sC _ _ _ _ _), path_to_root_tail_none]
    rfl

/-- C4: in a run of `record_debug_info` the `reexecute` flag passed to
`describe_scope` is false for every frame other than the one the top-level
call was made on; for that frame, described last, it is `should_reexecute()`
when `topmost` is true and false when `topmost` is false. -/
theorem record_debug_info_reexecute_only_topmost {σ : Type}
    (should_reexecute : IRScopeDebugInfo → Bool) (recorder : DebugInformationRecorder σ)
    (N : IRScopeDebugInfo) (pc_offset : Int) (topmost : Bool) (st : σ) :
    (N.record_debug_info should_reexecute recorder.observed pc_offset topmost (st, [])).2.map
        (fun c => (c.frame, c.reexecute))
      = N.path_to_root.tail.reverse.map (fun n => (n.frame_at pc_offset, false))
        ++ [(N.frame_at pc_offset, if topmost then should_reexecute N else false)] ∧
    (N.record_debug_info should_reexecute recorder.observed pc_offset true (st, [])).2.map
        (fun c => c.reexecute)
      = List.replicate N.path_to_root.tail.length false ++ [should_reexecute N] ∧
    (N.record_debug_info should_reexecute recorder.observed pc_offset false (st, [])).2.map
        (fun c => c.reexecute)
      = List.replicate N.path_to_root.length false := by
  have key : ∀ t : Bool,
      (N.record_debug_info should_reexecute recorder.observed pc_offset t (st, [])).2.map
          (fun c => (c.frame, c.reexecute))
        = N.path_to_root.tail.reverse.map (fun n => (n.frame_at pc_offset, false))
          ++ [(N.frame_at pc_offset, if t then should_reexecute N else false)] := by
    intro t
    obtain ⟨calls, hlog, hcalls⟩ :=
      record_debug_info_observed_log should_reexecute recorder N pc_offset t st []
    rw [hlog, List.nil_append, hcalls]
  have flags : ∀ t : Bool,
      (N.record_debug_info should_reexecute recorder.observed pc_offset t (st, [])).2.map
          (fun c => c.reexecute)
        = List.replicate N.path_to_root.tail.length false
          ++ [if t then should_reexecute N else false] := by
    intro t
    have hsnd := congrArg (List.map Prod.snd) (key t)
    simp only [List.map_map, List.map_append, List.map_cons, List.map_nil] at hsnd
    rw [show (fun c : DescribeScope => c.reexecute)
        = Prod.snd ∘ (fun c : DescribeScope => (c.frame, c.reexecute)) from rfl, hsnd]
    rw [show (Prod.snd ∘ fun n : IRScopeDebugInfo => (n.frame_at pc_offset, false))
        = (fun _ => false) from rfl, List.map_const', List.length_reverse]
  refine ⟨key topmost, by simpa using flags true, ?_⟩
  have hfalse := flags false
  rw [hfalse]
  conv_rhs => rw [path_to_root_eq_cons N, List.length_cons, List.replicate_succ']
  simp

end C1IR
